import Mathlib

/-!
Shallow embedding of the player-motion core of the Tempus Fugit Minecraft
repository (tempus_fugit_minecraft/player.py), together with proofs about
the behaviour of its operations.

Python floats are modelled as real numbers, Python ints as integers or
naturals, and the strafe list of two ints as a pair of integers.  A Python
assertion failure is modelled by returning none from an Option-valued
function (the assertion in slow_walking_speed fires before any mutation,
so a failing call leaves the state untouched).
-/

namespace TempusFugit

open Real

/-- Block kinds referenced by player.py.  The Block module itself is not
part of the sources; only the names of its members appear in player.py,
so the kinds are modelled as an enumeration of those names. -/
inductive Block where
  | BRICK
  | GRASS
  | SAND
  | TREE_TRUNK
  | TREE_LEAVES
  | LIGHT_CLOUD
  | DARK_CLOUD
  deriving DecidableEq

/- Constants fixed in Player.__init__ (player.py lines 18-36). -/

def MAX_JUMP_HEIGHT_IN_BLOCKS : ℝ := 1

def PLAYER_HEIGHT_IN_BLOCKS : ℕ := 2

def MAX_FALL_SPEED_IN_BLOCKS_PER_SECOND : ℝ := 50

def FLYING_SPEED_IN_BLOCKS_PER_SECOND : ℝ := 15

def GRAVITY_IN_BLOCKS_PER_SECOND_SQUARED : ℝ := 20

def MAX_SPEED_IN_BLOCKS_PER_SECOND : ℝ := 15

def MIN_SPEED_IN_BLOCKS_PER_SECOND : ℝ := 5

/-- player.py line 33: int(math.sqrt(2 * GRAVITY * MAX_JUMP_HEIGHT)).
Python's int() truncates toward zero, which is the floor for the
non-negative square root. -/
noncomputable def INITIAL_JUMP_SPEED_IN_BLOCKS_PER_SECOND : ℝ :=
  ((⌊Real.sqrt (2 * GRAVITY_IN_BLOCKS_PER_SECOND_SQUARED * MAX_JUMP_HEIGHT_IN_BLOCKS)⌋ : ℤ) : ℝ)

noncomputable def MAX_JUMP_SPEED_IN_BLOCKS_PER_SECOND : ℝ :=
  INITIAL_JUMP_SPEED_IN_BLOCKS_PER_SECOND + 10

noncomputable def MIN_JUMP_SPEED_IN_BLOCKS_PER_SECOND : ℝ :=
  INITIAL_JUMP_SPEED_IN_BLOCKS_PER_SECOND

def WALK_SPEED_IN_BLOCKS_PER_SECOND : ℝ := 5

/-- The mutable state of Player (player.py lines 38-65). -/
structure Player where
  jump_speed_in_blocks_per_second : ℝ
  walking_speed_in_blocks_per_second : ℝ
  flying : Bool
  ascend : Bool
  descend : Bool
  strafe_unit_vector : ℤ × ℤ
  position_in_blocks_from_origin : ℝ × ℝ × ℝ
  rotation_in_degrees : ℝ × ℝ
  vertical_velocity_in_blocks_per_second : ℝ
  inventory : List Block
  selected_block : Block

/-- The state built by Player.__init__. -/
noncomputable def Player.init : Player where
  jump_speed_in_blocks_per_second := INITIAL_JUMP_SPEED_IN_BLOCKS_PER_SECOND
  walking_speed_in_blocks_per_second := WALK_SPEED_IN_BLOCKS_PER_SECOND
  flying := false
  ascend := false
  descend := false
  strafe_unit_vector := (0, 0)
  position_in_blocks_from_origin := (0, 0, 0)
  rotation_in_degrees := (0, 0)
  vertical_velocity_in_blocks_per_second := 0
  inventory := [Block.BRICK, Block.GRASS, Block.SAND, Block.TREE_TRUNK,
    Block.TREE_LEAVES, Block.LIGHT_CLOUD, Block.DARK_CLOUD]
  selected_block := Block.BRICK

/-- math.radians: degrees to radians. -/
noncomputable def radians (d : ℝ) : ℝ := d * (π / 180)

/-- math.degrees: radians to degrees. -/
noncomputable def degrees (r : ℝ) : ℝ := r * (180 / π)

/-- math.atan2 y x: the angle of the point (x, y), in (-pi, pi].
Real numbers carry no signed zero, so the y = 0, x < 0 ray gets the
positive-zero convention, angle pi. -/
noncomputable def atan2 (y x : ℝ) : ℝ :=
  if 0 < x then Real.arctan (y / x)
  else if x < 0 then
    (if 0 ≤ y then Real.arctan (y / x) + π else Real.arctan (y / x) - π)
  else
    (if 0 < y then π / 2 else if y < 0 then -(π / 2) else 0)

/-- player.py get_sight_vector (lines 67-81). -/
noncomputable def get_sight_vector (p : Player) : ℝ × ℝ × ℝ :=
  let x := p.rotation_in_degrees.1
  let y := p.rotation_in_degrees.2
  let m := Real.cos (radians y)
  let dy := Real.sin (radians y)
  let dx := Real.cos (radians (x - 90)) * m
  let dz := Real.sin (radians (x - 90)) * m
  (dx, dy, dz)

/-- player.py get_motion_vector (lines 83-116).  Python's
any(self.strafe_unit_vector) tests that some component is nonzero, and
math.atan2(*self.strafe_unit_vector) unpacks the list in order, calling
atan2(strafe[0], strafe[1]). -/
noncomputable def get_motion_vector (p : Player) : ℝ × ℝ × ℝ :=
  if p.strafe_unit_vector.1 ≠ 0 ∨ p.strafe_unit_vector.2 ≠ 0 then
    let x := p.rotation_in_degrees.1
    let y := p.rotation_in_degrees.2
    let strafe := degrees (atan2 (p.strafe_unit_vector.1 : ℝ) (p.strafe_unit_vector.2 : ℝ))
    let y_angle := radians y
    let x_angle := radians (x + strafe)
    if p.flying then
      let m := Real.cos y_angle
      let dy := Real.sin y_angle
      -- Moving left or right: dy = 0.0, m = 1.
      let m := if p.strafe_unit_vector.2 ≠ 0 then 1 else m
      let dy := if p.strafe_unit_vector.2 ≠ 0 then 0 else dy
      -- Moving backwards: dy *= -1.
      let dy := if 0 < p.strafe_unit_vector.1 then -dy else dy
      (Real.cos x_angle * m, dy, Real.sin x_angle * m)
    else
      (Real.cos x_angle, (0 : ℝ), Real.sin x_angle)
  else
    ((0 : ℝ), (0 : ℝ), (0 : ℝ))

/-- player.py increase_walk_speed (lines 118-129). -/
noncomputable def increase_walk_speed (p : Player) : Player :=
  if p.walking_speed_in_blocks_per_second ≤ MAX_SPEED_IN_BLOCKS_PER_SECOND then
    { p with walking_speed_in_blocks_per_second :=
        p.walking_speed_in_blocks_per_second + WALK_SPEED_IN_BLOCKS_PER_SECOND }
  else p

/-- player.py decrease_walk_speed (lines 131-140). -/
noncomputable def decrease_walk_speed (p : Player) : Player :=
  if MIN_SPEED_IN_BLOCKS_PER_SECOND < p.walking_speed_in_blocks_per_second then
    { p with walking_speed_in_blocks_per_second :=
        p.walking_speed_in_blocks_per_second - WALK_SPEED_IN_BLOCKS_PER_SECOND }
  else p

/-- player.py increase_jump_speed (lines 142-148). -/
noncomputable def increase_jump_speed (p : Player) : Player :=
  if p.jump_speed_in_blocks_per_second ≤ MAX_JUMP_SPEED_IN_BLOCKS_PER_SECOND then
    { p with jump_speed_in_blocks_per_second := p.jump_speed_in_blocks_per_second + 5 }
  else p

/-- player.py decrease_jump_speed (lines 150-156). -/
noncomputable def decrease_jump_speed (p : Player) : Player :=
  if MIN_JUMP_SPEED_IN_BLOCKS_PER_SECOND < p.jump_speed_in_blocks_per_second then
    { p with jump_speed_in_blocks_per_second := p.jump_speed_in_blocks_per_second - 5 }
  else p

/-- player.py adjust_sight (lines 231-243). -/
noncomputable def adjust_sight (p : Player) (dx dy : ℝ) : Player :=
  let x := p.rotation_in_degrees.1
  let y := p.rotation_in_degrees.2
  let m : ℝ := 0.15
  let x := dx * m + x
  let y := dy * m + y
  let y := max (-90) (min 90 y)
  { p with rotation_in_degrees := (x, y) }

/-- player.py current_speed (lines 245-250). -/
noncomputable def current_speed (p : Player) : ℝ :=
  if p.flying then FLYING_SPEED_IN_BLOCKS_PER_SECOND
  else p.walking_speed_in_blocks_per_second

/-- player.py toggle_flight (lines 252-257). -/
def toggle_flight (p : Player) : Player := { p with flying := !p.flying }

/-- player.py update (lines 259-296).  The collision checker takes a
candidate position and the player height and returns the adjusted
position. -/
noncomputable def update (p : Player) (delta_time_in_seconds : ℝ)
    (collision_checker : ℝ × ℝ × ℝ → ℕ → ℝ × ℝ × ℝ) : Player :=
  let speed := current_speed p
  let d := delta_time_in_seconds * speed
  let mv := get_motion_vector p
  let dx := mv.1 * d
  let dy := mv.2.1 * d
  let dz := mv.2.2 * d
  if p.flying = false then
    -- gravity: integrate, then clamp at terminal velocity
    let vv1 := p.vertical_velocity_in_blocks_per_second -
      delta_time_in_seconds * GRAVITY_IN_BLOCKS_PER_SECOND_SQUARED
    let vv2 := max vv1 (-MAX_FALL_SPEED_IN_BLOCKS_PER_SECOND)
    let dy := dy + vv2 * delta_time_in_seconds
    { p with
      vertical_velocity_in_blocks_per_second := vv2,
      position_in_blocks_from_origin :=
        collision_checker
          (p.position_in_blocks_from_origin.1 + dx,
           p.position_in_blocks_from_origin.2.1 + dy,
           p.position_in_blocks_from_origin.2.2 + dz)
          PLAYER_HEIGHT_IN_BLOCKS }
  else
    let vertical_direction_modifier : ℝ :=
      (if p.ascend then 1 else 0) - (if p.descend then 1 else 0)
    let dy := dy + vertical_direction_modifier * delta_time_in_seconds *
      FLYING_SPEED_IN_BLOCKS_PER_SECOND
    { p with
      position_in_blocks_from_origin :=
        collision_checker
          (p.position_in_blocks_from_origin.1 + dx,
           p.position_in_blocks_from_origin.2.1 + dy,
           p.position_in_blocks_from_origin.2.2 + dz)
          PLAYER_HEIGHT_IN_BLOCKS }

/-- player.py keep_player_within_coordinates (lines 310-325). -/
noncomputable def keep_player_within_coordinates (dimension boundary_size : ℝ) : ℝ :=
  if boundary_size < dimension then boundary_size
  else if dimension < -boundary_size then -boundary_size
  else dimension

/-- player.py check_player_within_world_boundaries (lines 298-308).  The
source passes World.WIDTH_FROM_ORIGIN_IN_BLOCKS for both calls; the World
module is not among the sources, so the scalar half-width is kept as the
parameter W. -/
noncomputable def check_player_within_world_boundaries (W : ℝ) (p : Player) : Player :=
  let x := keep_player_within_coordinates p.position_in_blocks_from_origin.1 W
  let z := keep_player_within_coordinates p.position_in_blocks_from_origin.2.2 W
  { p with position_in_blocks_from_origin :=
      (x, p.position_in_blocks_from_origin.2.1, z) }

/-- player.py slow_walking_speed (lines 327-337).  Both asserts are
modelled: a failing assert raises, returning none; the precondition
assert fires before the assignment, so the state is unchanged on
failure. -/
noncomputable def slow_walking_speed (p : Player) : Option Player :=
  if p.walking_speed_in_blocks_per_second = 5 then
    let p' := { p with walking_speed_in_blocks_per_second :=
        p.walking_speed_in_blocks_per_second / 3 }
    if p'.walking_speed_in_blocks_per_second = 5 / 3 then some p' else none
  else none

/-- player.py reset_walking_speed (lines 339-345). -/
noncomputable def reset_walking_speed (p : Player) : Player :=
  { p with walking_speed_in_blocks_per_second := 5 }

/-- player.py start_sprinting (lines 347-352). -/
noncomputable def start_sprinting (p : Player) : Player :=
  { p with walking_speed_in_blocks_per_second :=
      p.walking_speed_in_blocks_per_second * 2 }

/-- The jump-speed operations callable on a player. -/
inductive JumpOp where
  | inc
  | dec

/-- Apply one jump-speed operation. -/
noncomputable def applyJumpOp (p : Player) : JumpOp → Player
  | JumpOp.inc => increase_jump_speed p
  | JumpOp.dec => decrease_jump_speed p

/-- Apply a sequence of jump-speed operations, oldest first. -/
noncomputable def applyJumpOps (p : Player) (ops : List JumpOp) : Player :=
  ops.foldl applyJumpOp p

/-- The unconditional public walking-speed operations (slow_walking_speed,
being Option-valued, is treated separately). -/
inductive SpeedOp where
  | inc
  | dec
  | sprint
  | reset

/-- Apply one walking-speed operation. -/
noncomputable def applySpeedOp (p : Player) : SpeedOp → Player
  | SpeedOp.inc => increase_walk_speed p
  | SpeedOp.dec => decrease_walk_speed p
  | SpeedOp.sprint => start_sprinting p
  | SpeedOp.reset => reset_walking_speed p

/-- Apply a sequence of walking-speed operations, oldest first. -/
noncomputable def applySpeedOps (p : Player) (ops : List SpeedOp) : Player :=
  ops.foldl applySpeedOp p

/-- The jump-speed values reachable from the initial state. -/
def JumpReach (x : ℝ) : Prop := x = 6 ∨ x = 11 ∨ x = 16 ∨ x = 21

/-- The walking-speed values reachable from the initial state by the
unconditional speed operations: positive multiples of 5. -/
def SpeedReach (x : ℝ) : Prop := ∃ k : ℕ, 1 ≤ k ∧ x = 5 * k

/-- The non-flying motion vector exactly as the spec sentence writes it:
strafe_angle is degrees(atan2(strafe_intent[1], strafe_intent[0])), the
lateral component as the first atan2 argument. -/
noncomputable def spec_nonflying_motion_vector (rot : ℝ × ℝ) (strafe : ℤ × ℤ) : ℝ × ℝ × ℝ :=
  let strafe_angle := degrees (atan2 (strafe.2 : ℝ) (strafe.1 : ℝ))
  let x_angle := radians (rot.1 + strafe_angle)
  (Real.cos x_angle, (0 : ℝ), Real.sin x_angle)

/-!  Helper lemmas shared by the theorems below. -/

/-- int(math.sqrt(2 * 20.0 * 1.0)) evaluates to 6. -/
theorem initial_jump_speed_eq : INITIAL_JUMP_SPEED_IN_BLOCKS_PER_SECOND = 6 := by
  unfold INITIAL_JUMP_SPEED_IN_BLOCKS_PER_SECOND GRAVITY_IN_BLOCKS_PER_SECOND_SQUARED
    MAX_JUMP_HEIGHT_IN_BLOCKS
  have h40 : (2 : ℝ) * 20 * 1 = 40 := by norm_num
  rw [h40]
  have h1 : (6 : ℝ) ≤ Real.sqrt 40 := by
    rw [Real.le_sqrt' (by norm_num)]
    norm_num
  have h2 : Real.sqrt 40 < 7 := by
    rw [Real.sqrt_lt' (by norm_num)]
    norm_num
  have hfloor : ⌊Real.sqrt 40⌋ = 6 := by
    rw [Int.floor_eq_iff]
    exact ⟨by exact_mod_cast h1, by push_cast; linarith⟩
  rw [hfloor]
  norm_num

theorem max_jump_speed_eq : MAX_JUMP_SPEED_IN_BLOCKS_PER_SECOND = 16 := by
  unfold MAX_JUMP_SPEED_IN_BLOCKS_PER_SECOND
  rw [initial_jump_speed_eq]
  norm_num

theorem min_jump_speed_eq : MIN_JUMP_SPEED_IN_BLOCKS_PER_SECOND = 6 := by
  unfold MIN_JUMP_SPEED_IN_BLOCKS_PER_SECOND
  exact initial_jump_speed_eq

theorem jump_reach_step (p : Player) (op : JumpOp)
    (h : JumpReach p.jump_speed_in_blocks_per_second) :
    JumpReach (applyJumpOp p op).jump_speed_in_blocks_per_second := by
  cases op
  case inc =>
    simp only [applyJumpOp, increase_jump_speed, max_jump_speed_eq]
    rcases h with h | h | h | h <;> norm_num [JumpReach, h]
  case dec =>
    simp only [applyJumpOp, decrease_jump_speed, min_jump_speed_eq]
    rcases h with h | h | h | h <;> norm_num [JumpReach, h]

theorem jump_reach_fold (l : List JumpOp) (p : Player)
    (h : JumpReach p.jump_speed_in_blocks_per_second) :
    JumpReach ((l.foldl applyJumpOp p).jump_speed_in_blocks_per_second) := by
  induction l generalizing p with
  | nil => exact h
  | cons op l ih => exact ih _ (jump_reach_step p op h)

theorem speed_reach_step (p : Player) (op : SpeedOp)
    (h : SpeedReach p.walking_speed_in_blocks_per_second) :
    SpeedReach (applySpeedOp p op).walking_speed_in_blocks_per_second := by
  obtain ⟨k, hk1, hk⟩ := h
  cases op
  case inc =>
    simp only [applySpeedOp, increase_walk_speed]
    split_ifs with hguard
    · exact ⟨k + 1, by omega, by push_cast [hk, WALK_SPEED_IN_BLOCKS_PER_SECOND]; ring⟩
    · exact ⟨k, hk1, hk⟩
  case dec =>
    simp only [applySpeedOp, decrease_walk_speed]
    split_ifs with hguard
    · have h5 : (5 : ℝ) < 5 * (k : ℝ) := by
        simp only [MIN_SPEED_IN_BLOCKS_PER_SECOND, hk] at hguard
        exact hguard
      have hklt : (1 : ℝ) < (k : ℝ) := by nlinarith
      have hk2 : 2 ≤ k := by
        have h1 : 1 < k := by exact_mod_cast hklt
        omega
      refine ⟨k - 1, by omega, ?_⟩
      have hcast : ((k - 1 : ℕ) : ℝ) = (k : ℝ) - 1 := by
        rw [Nat.cast_sub (by omega : 1 ≤ k)]
        norm_num
      rw [hcast, hk, WALK_SPEED_IN_BLOCKS_PER_SECOND]
      ring
    · exact ⟨k, hk1, hk⟩
  case sprint =>
    exact ⟨2 * k, by omega, by
      simp only [applySpeedOp, start_sprinting]
      push_cast [hk]
      ring⟩
  case reset =>
    exact ⟨1, le_refl 1, by simp [applySpeedOp, reset_walking_speed]⟩

theorem speed_reach_fold (l : List SpeedOp) (p : Player)
    (h : SpeedReach p.walking_speed_in_blocks_per_second) :
    SpeedReach ((l.foldl applySpeedOp p).walking_speed_in_blocks_per_second) := by
  induction l generalizing p with
  | nil => exact h
  | cons op l ih => exact ih _ (speed_reach_step p op h)

/-- C2: for every player state with flying = false and every
delta_time > 0, update sets the vertical velocity to
max(old − delta_time·GRAVITY, −MAX_FALL_SPEED); in particular the new
vertical velocity is bounded below by −MAX_FALL_SPEED. -/
theorem update_nonflying_vertical_velocity (p : Player) (dt : ℝ)
    (chk : ℝ × ℝ × ℝ → ℕ → ℝ × ℝ × ℝ)
    (hf : p.flying = false) (_hdt : 0 < dt) :
    (update p dt chk).vertical_velocity_in_blocks_per_second =
      max (p.vertical_velocity_in_blocks_per_second -
          dt * GRAVITY_IN_BLOCKS_PER_SECOND_SQUARED)
        (-MAX_FALL_SPEED_IN_BLOCKS_PER_SECOND) ∧
    -MAX_FALL_SPEED_IN_BLOCKS_PER_SECOND ≤
      (update p dt chk).vertical_velocity_in_blocks_per_second := by
  have hupd : (update p dt chk).vertical_velocity_in_blocks_per_second =
      max (p.vertical_velocity_in_blocks_per_second -
          dt * GRAVITY_IN_BLOCKS_PER_SECOND_SQUARED)
        (-MAX_FALL_SPEED_IN_BLOCKS_PER_SECOND) := by
    unfold update
    rw [hf]
    simp
  exact ⟨hupd, hupd ▸ le_max_right _ _⟩

/-- Witness for C2: the initial player (not flying), delta_time 1 and the
identity collision checker; the vertical velocity after update is
max(0 − 20, −50) = −20, which is ≥ −50. -/
theorem update_nonflying_vertical_velocity_witness :
    Player.init.flying = false ∧ (0 : ℝ) < 1 ∧
    (update Player.init 1 (fun pos _ => pos)).vertical_velocity_in_blocks_per_second = -20 ∧
    -MAX_FALL_SPEED_IN_BLOCKS_PER_SECOND ≤
      (update Player.init 1 (fun pos _ => pos)).vertical_velocity_in_blocks_per_second := by
  have h := update_nonflying_vertical_velocity Player.init 1 (fun pos _ => pos) rfl
    (by norm_num)
  refine ⟨rfl, by norm_num, ?_, h.2⟩
  rw [h.1]
  have h0 : Player.init.vertical_velocity_in_blocks_per_second = 0 := rfl
  rw [h0]
  norm_num [GRAVITY_IN_BLOCKS_PER_SECOND_SQUARED,
    MAX_FALL_SPEED_IN_BLOCKS_PER_SECOND, max_def]

/-- C9: update mutates only the position and the vertical velocity —
rotation, strafe intent, flying/ascend/descend flags, walking speed, jump
speed, inventory and selected block are unchanged, and the vertical
velocity is unchanged when flying (it follows the gravity clamp
otherwise). -/
theorem update_frame (p : Player) (dt : ℝ)
    (chk : ℝ × ℝ × ℝ → ℕ → ℝ × ℝ × ℝ) :
    (update p dt chk).rotation_in_degrees = p.rotation_in_degrees ∧
    (update p dt chk).strafe_unit_vector = p.strafe_unit_vector ∧
    (update p dt chk).flying = p.flying ∧
    (update p dt chk).ascend = p.ascend ∧
    (update p dt chk).descend = p.descend ∧
    (update p dt chk).walking_speed_in_blocks_per_second =
      p.walking_speed_in_blocks_per_second ∧
    (update p dt chk).jump_speed_in_blocks_per_second =
      p.jump_speed_in_blocks_per_second ∧
    (update p dt chk).inventory = p.inventory ∧
    (update p dt chk).selected_block = p.selected_block ∧
    (update p dt chk).vertical_velocity_in_blocks_per_second =
      (if p.flying then p.vertical_velocity_in_blocks_per_second
       else max (p.vertical_velocity_in_blocks_per_second -
             dt * GRAVITY_IN_BLOCKS_PER_SECOND_SQUARED)
           (-MAX_FALL_SPEED_IN_BLOCKS_PER_SECOND)) := by
  cases hf : p.flying <;> simp [update, hf]

/-- C4: from the initial walking speed 5, increase_walk_speed yields
10, 15, 20 on the first three calls, and every further call leaves the
walking speed exactly at 20: the ≤ MAX_SPEED guard permits one increment
past MAX_SPEED = 15 and then blocks. -/
theorem walk_speed_ceiling :
    (increase_walk_speed Player.init).walking_speed_in_blocks_per_second = 10 ∧
    (increase_walk_speed (increase_walk_speed
      Player.init)).walking_speed_in_blocks_per_second = 15 ∧
    (increase_walk_speed (increase_walk_speed (increase_walk_speed
      Player.init))).walking_speed_in_blocks_per_second = 20 ∧
    ∀ n : ℕ, (increase_walk_speed^[n + 3]
      Player.init).walking_speed_in_blocks_per_second = 20 := by
  have e1 : increase_walk_speed Player.init =
      { Player.init with walking_speed_in_blocks_per_second := 10 } := by
    unfold increase_walk_speed
    rw [if_pos (by norm_num [Player.init, WALK_SPEED_IN_BLOCKS_PER_SECOND,
      MAX_SPEED_IN_BLOCKS_PER_SECOND])]
    norm_num [Player.init, WALK_SPEED_IN_BLOCKS_PER_SECOND]
  have e2 : increase_walk_speed
      { Player.init with walking_speed_in_blocks_per_second := 10 } =
      { Player.init with walking_speed_in_blocks_per_second := 15 } := by
    unfold increase_walk_speed
    rw [if_pos (by norm_num [MAX_SPEED_IN_BLOCKS_PER_SECOND])]
    norm_num [WALK_SPEED_IN_BLOCKS_PER_SECOND]
  have e3 : increase_walk_speed
      { Player.init with walking_speed_in_blocks_per_second := 15 } =
      { Player.init with walking_speed_in_blocks_per_second := 20 } := by
    unfold increase_walk_speed
    rw [if_pos (by norm_num [MAX_SPEED_IN_BLOCKS_PER_SECOND])]
    norm_num [WALK_SPEED_IN_BLOCKS_PER_SECOND]
  have hfix : increase_walk_speed
      { Player.init with walking_speed_in_blocks_per_second := 20 } =
      { Player.init with walking_speed_in_blocks_per_second := 20 } := by
    unfold increase_walk_speed
    rw [if_neg (by norm_num [MAX_SPEED_IN_BLOCKS_PER_SECOND])]
  refine ⟨by rw [e1], by rw [e1, e2], by rw [e1, e2, e3], ?_⟩
  intro n
  have h3 : increase_walk_speed^[3] Player.init =
      { Player.init with walking_speed_in_blocks_per_second := 20 } := by
    rw [show (3 : ℕ) = 2 + 1 from rfl, Function.iterate_succ_apply',
      show (2 : ℕ) = 1 + 1 from rfl, Function.iterate_succ_apply',
      Function.iterate_one, e1, e2, e3]
  rw [Function.iterate_add_apply, h3, Function.iterate_fixed hfix]

/-- Counterexample to C3: three increase_jump_speed calls from the
initial state drive jump_speed to 21, strictly above
MAX_JUMP_SPEED = 16, so the [MIN_JUMP_SPEED, MAX_JUMP_SPEED] invariant
is not preserved. -/
theorem jump_speed_exceeds_max :
    MAX_JUMP_SPEED_IN_BLOCKS_PER_SECOND <
      (increase_jump_speed (increase_jump_speed (increase_jump_speed
        Player.init))).jump_speed_in_blocks_per_second := by
  have hj : Player.init.jump_speed_in_blocks_per_second = 6 := initial_jump_speed_eq
  have e1 : increase_jump_speed Player.init =
      { Player.init with jump_speed_in_blocks_per_second := 11 } := by
    unfold increase_jump_speed
    rw [if_pos (by rw [hj, max_jump_speed_eq]; norm_num)]
    norm_num [hj]
  have e2 : increase_jump_speed
      { Player.init with jump_speed_in_blocks_per_second := 11 } =
      { Player.init with jump_speed_in_blocks_per_second := 16 } := by
    unfold increase_jump_speed
    rw [if_pos (by rw [max_jump_speed_eq]; norm_num)]
    norm_num
  have e3 : increase_jump_speed
      { Player.init with jump_speed_in_blocks_per_second := 16 } =
      { Player.init with jump_speed_in_blocks_per_second := 21 } := by
    unfold increase_jump_speed
    rw [if_pos (by rw [max_jump_speed_eq])]
    norm_num
  rw [e1, e2, e3, max_jump_speed_eq]
  norm_num

/-- C3 corrected: under every sequence of increase_jump_speed and
decrease_jump_speed calls from the initial state, jump_speed stays in
[MIN_JUMP_SPEED, MAX_JUMP_SPEED + 5] = [6, 21]: as for the walking
speed, the ≤ MAX_JUMP_SPEED guard permits exactly one step past
MAX_JUMP_SPEED before blocking, so the adjustment is not clamped to
MAX_JUMP_SPEED itself. -/
theorem jump_speed_bounds (l : List JumpOp) :
    MIN_JUMP_SPEED_IN_BLOCKS_PER_SECOND ≤
      (applyJumpOps Player.init l).jump_speed_in_blocks_per_second ∧
    (applyJumpOps Player.init l).jump_speed_in_blocks_per_second ≤
      MAX_JUMP_SPEED_IN_BLOCKS_PER_SECOND + 5 := by
  have hreach : JumpReach
      ((applyJumpOps Player.init l).jump_speed_in_blocks_per_second) := by
    unfold applyJumpOps
    exact jump_reach_fold l _ (Or.inl initial_jump_speed_eq)
  rw [min_jump_speed_eq, max_jump_speed_eq]
  rcases hreach with h | h | h | h <;> rw [h] <;> norm_num

/-- Counterexample to C5: the state with walking_speed 20/3 is reachable
by public speed operations (slow_walking_speed from the initial state,
then start_sprinting twice), and decrease_walk_speed takes it to
5/3 < MIN_SPEED. -/
theorem decrease_walk_speed_below_min :
    slow_walking_speed Player.init =
      some { Player.init with walking_speed_in_blocks_per_second := 5 / 3 } ∧
    (decrease_walk_speed (start_sprinting (start_sprinting
      { Player.init with walking_speed_in_blocks_per_second :=
          5 / 3 }))).walking_speed_in_blocks_per_second <
      MIN_SPEED_IN_BLOCKS_PER_SECOND := by
  constructor
  · unfold slow_walking_speed
    rw [if_pos (show Player.init.walking_speed_in_blocks_per_second = 5 from rfl)]
    rw [if_pos (by norm_num [Player.init, WALK_SPEED_IN_BLOCKS_PER_SECOND] :
      ({ Player.init with walking_speed_in_blocks_per_second :=
          Player.init.walking_speed_in_blocks_per_second / 3 } :
        Player).walking_speed_in_blocks_per_second = 5 / 3)]
    norm_num [Player.init, WALK_SPEED_IN_BLOCKS_PER_SECOND]
  · norm_num [start_sprinting, decrease_walk_speed,
      MIN_SPEED_IN_BLOCKS_PER_SECOND, WALK_SPEED_IN_BLOCKS_PER_SECOND]

/-- C5 corrected: for every state reachable from the initial state by
increase_walk_speed, decrease_walk_speed, start_sprinting and
reset_walking_speed (slow_walking_speed excluded — through it walking
speeds strictly between MIN_SPEED and MIN_SPEED + increment become
reachable and a decrease can then land below MIN_SPEED), walking_speed
is at least MIN_SPEED and a further decrease_walk_speed call keeps it at
least MIN_SPEED. -/
theorem decrease_walk_speed_min (l : List SpeedOp) :
    MIN_SPEED_IN_BLOCKS_PER_SECOND ≤
      (applySpeedOps Player.init l).walking_speed_in_blocks_per_second ∧
    MIN_SPEED_IN_BLOCKS_PER_SECOND ≤
      (decrease_walk_speed (applySpeedOps Player.init
        l)).walking_speed_in_blocks_per_second := by
  have hreach : SpeedReach
      ((applySpeedOps Player.init l).walking_speed_in_blocks_per_second) := by
    unfold applySpeedOps
    exact speed_reach_fold l _ ⟨1, le_refl 1,
      by norm_num [Player.init, WALK_SPEED_IN_BLOCKS_PER_SECOND]⟩
  obtain ⟨k, hk1, hk⟩ := hreach
  have hk1R : (1 : ℝ) ≤ (k : ℝ) := by exact_mod_cast hk1
  constructor
  · simp only [MIN_SPEED_IN_BLOCKS_PER_SECOND, hk]
    nlinarith
  · unfold decrease_walk_speed
    split_ifs with hg
    · simp only [MIN_SPEED_IN_BLOCKS_PER_SECOND,
        WALK_SPEED_IN_BLOCKS_PER_SECOND, hk] at hg ⊢
      have h1 : (1 : ℝ) < (k : ℝ) := by nlinarith
      have h2 : 2 ≤ k := by
        have h1n : 1 < k := by exact_mod_cast h1
        omega
      have h2R : (2 : ℝ) ≤ (k : ℝ) := by exact_mod_cast h2
      nlinarith
    · simp only [MIN_SPEED_IN_BLOCKS_PER_SECOND, hk]
      nlinarith

/-!  Concrete angle evaluations used for the motion-vector claims. -/

theorem atan2_neg_one_zero : atan2 (-1) 0 = -(π / 2) := by
  unfold atan2
  norm_num

theorem atan2_zero_neg_one : atan2 0 (-1) = π := by
  unfold atan2
  norm_num [Real.arctan_zero]

theorem atan2_zero_one : atan2 0 1 = 0 := by
  unfold atan2
  norm_num [Real.arctan_zero]

theorem radians_degrees (r : ℝ) : radians (degrees r) = r := by
  unfold radians degrees
  field_simp

/-- Counterexample to C1: with rotation (0, 0) and strafe intent (-1, 0)
(moving forward, not flying) the code yields (0, 0, -1) — atan2 is
applied to (forward, lateral) — while the spec formula, which applies
atan2 to (lateral, forward), yields (-1, 0, 0). -/
theorem motion_vector_atan2_order_cex :
    get_motion_vector { Player.init with strafe_unit_vector := (-1, 0) } ≠
      spec_nonflying_motion_vector (0, 0) (-1, 0) := by
  have hget : get_motion_vector { Player.init with strafe_unit_vector := (-1, 0) } =
      (Real.cos (radians (0 + degrees (atan2 (-1) 0))), 0,
       Real.sin (radians (0 + degrees (atan2 (-1) 0)))) := by
    unfold get_motion_vector
    rw [if_pos (Or.inl (by norm_num :
      (({ Player.init with strafe_unit_vector := (-1, 0) } :
        Player).strafe_unit_vector.1 ≠ 0)))]
    norm_num [Player.init]
  have hspec : spec_nonflying_motion_vector (0, 0) (-1, 0) =
      (Real.cos (radians (0 + degrees (atan2 0 (-1)))), 0,
       Real.sin (radians (0 + degrees (atan2 0 (-1))))) := by
    unfold spec_nonflying_motion_vector
    norm_num
  rw [hget, hspec]
  simp only [zero_add, atan2_neg_one_zero, atan2_zero_neg_one,
    radians_degrees]
  simp only [ne_eq, Prod.mk.injEq, not_and, Real.cos_neg, Real.sin_neg,
    Real.cos_pi_div_two, Real.sin_pi_div_two, Real.cos_pi, Real.sin_pi]
  norm_num

/-- C1 corrected: in the non-flying case with nonzero strafe intent,
get_motion_vector returns (cos x_angle, 0, sin x_angle) where
x_angle = radians(yaw + degrees(atan2(strafe_intent[0], strafe_intent[1]))):
the forward/back component is the first atan2 argument and the lateral
component the second — the opposite order from the one the claim
states. -/
theorem motion_vector_nonflying (p : Player)
    (hs : p.strafe_unit_vector.1 ≠ 0 ∨ p.strafe_unit_vector.2 ≠ 0)
    (hf : p.flying = false) :
    get_motion_vector p =
      (Real.cos (radians (p.rotation_in_degrees.1 +
        degrees (atan2 (p.strafe_unit_vector.1 : ℝ) (p.strafe_unit_vector.2 : ℝ)))),
       0,
       Real.sin (radians (p.rotation_in_degrees.1 +
        degrees (atan2 (p.strafe_unit_vector.1 : ℝ) (p.strafe_unit_vector.2 : ℝ))))) := by
  unfold get_motion_vector
  rw [if_pos hs, hf]
  simp

/-- Witness for C1 corrected: strafe intent (0, 1) (moving right) with
the initial rotation (0, 0), not flying, yields the motion vector
(1, 0, 0). -/
theorem motion_vector_nonflying_witness :
    (({ Player.init with strafe_unit_vector := (0, 1) } :
        Player).strafe_unit_vector.1 ≠ 0 ∨
      ({ Player.init with strafe_unit_vector := (0, 1) } :
        Player).strafe_unit_vector.2 ≠ 0) ∧
    ({ Player.init with strafe_unit_vector := (0, 1) } : Player).flying = false ∧
    get_motion_vector { Player.init with strafe_unit_vector := (0, 1) } =
      (1, 0, 0) := by
  have hs : (({ Player.init with strafe_unit_vector := (0, 1) } :
        Player).strafe_unit_vector.1 ≠ 0 ∨
      ({ Player.init with strafe_unit_vector := (0, 1) } :
        Player).strafe_unit_vector.2 ≠ 0) := Or.inr (by norm_num)
  refine ⟨hs, rfl, ?_⟩
  rw [motion_vector_nonflying _ hs rfl]
  norm_num [Player.init, atan2_zero_one, degrees, radians]

/-- Counterexample to C6: after adjust_sight(0, 700) the pitch is 90, and
the following adjust_sight(0, -700) leaves pitch -15, not -90. -/
theorem adjust_sight_sequence_cex :
    (adjust_sight (adjust_sight Player.init 0 700) 0
      (-700)).rotation_in_degrees.2 ≠ -90 := by
  norm_num [adjust_sight, Player.init, max_def, min_def]

/-- C6 corrected: from pitch 0, adjust_sight(0, 700) yields pitch exactly
90 (105 clamped down); the subsequent adjust_sight(0, -700) starts from
pitch 90 and yields exactly -15, not -90 (a single adjust_sight(0, -700)
from pitch 0 does yield -90, the downward clamp); yaw is unchanged by
both calls. -/
theorem adjust_sight_sequence :
    (adjust_sight Player.init 0 700).rotation_in_degrees.2 = 90 ∧
    (adjust_sight (adjust_sight Player.init 0 700) 0
      (-700)).rotation_in_degrees.2 = -15 ∧
    (adjust_sight Player.init 0 (-700)).rotation_in_degrees.2 = -90 ∧
    (adjust_sight Player.init 0 700).rotation_in_degrees.1 = 0 ∧
    (adjust_sight (adjust_sight Player.init 0 700) 0
      (-700)).rotation_in_degrees.1 = 0 := by
  refine ⟨?_, ?_, ?_, ?_, ?_⟩ <;>
    norm_num [adjust_sight, Player.init, max_def, min_def]

/-- C7: slow_walking_speed fails its assertion (modelled as none) exactly
when walking_speed is not 5 — and then the state is unmodified — and on
walking_speed = 5 it succeeds, setting walking_speed to 5/3. -/
theorem slow_walking_speed_assert (p : Player) :
    (slow_walking_speed p = none ↔
      p.walking_speed_in_blocks_per_second ≠ 5) ∧
    (p.walking_speed_in_blocks_per_second = 5 →
      slow_walking_speed p =
        some { p with walking_speed_in_blocks_per_second := 5 / 3 }) := by
  by_cases h : p.walking_speed_in_blocks_per_second = 5
  · have hsome : slow_walking_speed p =
        some { p with walking_speed_in_blocks_per_second := 5 / 3 } := by
      unfold slow_walking_speed
      rw [if_pos h]
      rw [if_pos (by simp [h])]
      simp [h]
    exact ⟨by rw [hsome]; simp [h], fun _ => hsome⟩
  · have hnone : slow_walking_speed p = none := by
      unfold slow_walking_speed
      rw [if_neg h]
    exact ⟨by rw [hnone]; simp [h], fun hw => absurd hw h⟩

/-- Witness for C7: from the initial state (walking speed 5) the call
succeeds with new walking speed 5/3; from a state with walking speed 7
it fails. -/
theorem slow_walking_speed_assert_witness :
    slow_walking_speed Player.init =
      some { Player.init with walking_speed_in_blocks_per_second := 5 / 3 } ∧
    slow_walking_speed
      { Player.init with walking_speed_in_blocks_per_second := 7 } = none := by
  constructor
  · exact (slow_walking_speed_assert Player.init).2 rfl
  · exact ((slow_walking_speed_assert
      { Player.init with walking_speed_in_blocks_per_second := 7 }).1).mpr
      (by norm_num)

/-- C8: the boundary clamp returns the coordinate unchanged on
[-W, W], W above W and -W below -W (W being the world half-width, a
nonnegative scalar), and the world-boundary check never modifies the y
component of the position. -/
theorem boundary_clamp (d W : ℝ) (p : Player) (hW : 0 ≤ W) :
    (-W ≤ d ∧ d ≤ W → keep_player_within_coordinates d W = d) ∧
    (W < d → keep_player_within_coordinates d W = W) ∧
    (d < -W → keep_player_within_coordinates d W = -W) ∧
    (check_player_within_world_boundaries W
      p).position_in_blocks_from_origin.2.1 =
      p.position_in_blocks_from_origin.2.1 := by
  refine ⟨fun h => ?_, fun h => ?_, fun h => ?_, ?_⟩
  · unfold keep_player_within_coordinates
    rw [if_neg (not_lt.mpr h.2), if_neg (not_lt.mpr h.1)]
  · unfold keep_player_within_coordinates
    rw [if_pos h]
  · unfold keep_player_within_coordinates
    rw [if_neg (not_lt.mpr (by linarith)), if_pos h]
  · unfold check_player_within_world_boundaries
    simp

/-- Witness for C8 at W = 10: 3 passes through, 20 clamps to 10, -20
clamps to -10, and the y coordinate of the initial player is untouched
by the boundary check. -/
theorem boundary_clamp_witness :
    ((0 : ℝ) ≤ 10) ∧
    ((-(10 : ℝ) ≤ 3 ∧ (3 : ℝ) ≤ 10) ∧ keep_player_within_coordinates 3 10 = 3) ∧
    ((10 : ℝ) < 20 ∧ keep_player_within_coordinates 20 10 = 10) ∧
    (((-20 : ℝ) < -10) ∧ keep_player_within_coordinates (-20) 10 = -10) ∧
    (check_player_within_world_boundaries 10
      Player.init).position_in_blocks_from_origin.2.1 =
      Player.init.position_in_blocks_from_origin.2.1 := by
  refine ⟨by norm_num, ⟨⟨by norm_num, by norm_num⟩, ?_⟩,
    ⟨by norm_num, ?_⟩, ⟨by norm_num, ?_⟩, ?_⟩
  · exact (boundary_clamp 3 10 Player.init (by norm_num)).1
      ⟨by norm_num, by norm_num⟩
  · exact (boundary_clamp 20 10 Player.init (by norm_num)).2.1 (by norm_num)
  · exact (boundary_clamp (-20) 10 Player.init (by norm_num)).2.2.1 (by norm_num)
  · exact (boundary_clamp 0 10 Player.init (by norm_num)).2.2.2

/-- C10: for a nonnegative boundary size the per-dimension clamp is
idempotent and its result always lies within [-boundary_size,
boundary_size]. -/
theorem keep_within_idempotent (d W : ℝ) (hW : 0 ≤ W) :
    keep_player_within_coordinates (keep_player_within_coordinates d W) W =
      keep_player_within_coordinates d W ∧
    -W ≤ keep_player_within_coordinates d W ∧
    keep_player_within_coordinates d W ≤ W := by
  refine ⟨?_, ?_, ?_⟩ <;> unfold keep_player_within_coordinates <;>
    split_ifs <;> linarith

/-- Witness for C10 at d = 37, W = 10: clamping twice equals clamping
once and the clamped value lies in [-10, 10]. -/
theorem keep_within_idempotent_witness :
    (0 : ℝ) ≤ 10 ∧
    keep_player_within_coordinates (keep_player_within_coordinates 37 10) 10 =
      keep_player_within_coordinates 37 10 ∧
    -(10 : ℝ) ≤ keep_player_within_coordinates 37 10 ∧
    keep_player_within_coordinates 37 10 ≤ 10 := by
  have h := keep_within_idempotent 37 10 (by norm_num)
  exact ⟨by norm_num, h.1, h.2.1, h.2.2⟩

end TempusFugit
